import Mathlib

/-!
Verification of the ServiceNow agent repository: a shallow embedding of
the remote-service adapter (`snow_client.py`), the tool dispatcher
(`tools.py`) and the agent loop (`snow_agent.py`), with theorems settling
the specification's claims about them.
-/

set_option autoImplicit false

/-- A JSON value, as produced by Python's `json` module from a decoded
HTTP body or a tool input. Numbers are modelled as integers (no claim
touches fractional values). -/
inductive JValue where
  | null
  | bool (b : Bool)
  | num (n : Int)
  | str (s : String)
  | arr (xs : List JValue)
  | obj (fields : List (String × JValue))

/-- Python `d.get(k, default)` on a dict rendered as an association list. -/
def jget (fs : List (String × JValue)) (k : String) (d : JValue) : JValue :=
  match fs.lookup k with
  | some v => v
  | none => d

/-- A query-string parameter value: `requests` accepts both ints and
strings in the `params` mapping (`snow_client.py` uses both). -/
inductive PValue where
  | int (i : Int)
  | str (s : String)
deriving DecidableEq

/-- The HTTP request a client method hands to the `requests` session:
method, URL path below the instance base URL, query parameters in
insertion order, and an optional JSON body. -/
structure HttpRequest where
  method : String
  path : String
  params : List (String × PValue)
  jsonBody : Option JValue

/-- An HTTP response as seen by `_handle_response`: the status code, the
result of `response.json()` (`none` when the body cannot be decoded, in
which case Python raises and the except-branch runs), and `response.text`. -/
structure HttpResponse where
  status_code : Nat
  jsonBody : Option JValue
  text : String

/-- The transport layer: a function from the request a client method
builds to either a response or a raised transport fault (timeout, DNS,
connection refused), which `requests` surfaces as an exception. -/
def Http : Type := HttpRequest → Except String HttpResponse

/-- The dict shape returned by `ServiceNowClient._handle_response` and by
the `execute_tool` catch branch. A field is `none` when the Python dict
does not carry that key at all. -/
structure ResultDict where
  success : Bool
  data : Option JValue
  error : Option JValue
  detail : Option JValue
  status_code : Option Nat

/-- The JSON object a `ResultDict` serializes to (`json.dumps` in
`execute_tool`): only the keys present in the dict appear, in insertion
order. -/
def ResultDict.toJson (r : ResultDict) : JValue :=
  .obj ([("success", .bool r.success)]
    ++ (match r.data with | some v => [("data", v)] | none => [])
    ++ (match r.error with | some v => [("error", v)] | none => [])
    ++ (match r.detail with | some v => [("detail", v)] | none => [])
    ++ (match r.status_code with | some c => [("status_code", JValue.num c)] | none => []))

/-- Embedding of `ServiceNowClient._handle_response` (snow_client.py lines 37-64).
204 → success with a synthetic acknowledgement; 200/201 → success with
the envelope's `result` field if the body is a JSON object (else the body
object itself; a non-object body makes `body.get` raise, caught to return
`response.text`); any other status → failure, pulling `message`/`detail`
out of the error envelope when the body is an object with an object-valued
`error` key, else falling back to `HTTP <status>` and a 500-character text
snippet. -/
def handle_response (resp : HttpResponse) : ResultDict :=
  if resp.status_code = 204 then
    ⟨true, some (.obj [("message", .str "Operation completed (no content returned)")]),
      none, none, none⟩
  else if resp.status_code = 200 ∨ resp.status_code = 201 then
    match resp.jsonBody with
    | some (.obj fs) => ⟨true, some (jget fs "result" (.obj fs)), none, none, none⟩
    | _ => ⟨true, some (.str resp.text), none, none, none⟩
  else
    match resp.jsonBody with
    | some (.obj fs) =>
      match jget fs "error" (.obj []) with
      | .obj efs =>
        ⟨false, none,
          some (jget efs "message" (.str ("HTTP " ++ toString resp.status_code))),
          some (jget efs "detail" (.str "")),
          some resp.status_code⟩
      | _ =>
        ⟨false, none, some (.str ("HTTP " ++ toString resp.status_code)),
          some (.str (resp.text.take 500)), some resp.status_code⟩
    | _ =>
      ⟨false, none, some (.str ("HTTP " ++ toString resp.status_code)),
        some (.str (resp.text.take 500)), some resp.status_code⟩

/-- The query-string parameters `ServiceNowClient.query_records` builds
(snow_client.py lines 81-96): the limit clamped to 1000, the offset, the
encoded query with an `^ORDERBY` suffix folded in (or a bare `ORDERBY`
query when only `order_by` is given), the comma-joined field projection
when a non-empty field list is supplied (`if fields:` is false for both
`None` and `[]`), and the display-value flag. -/
def query_records_params (query : String) (fields : Option (List String))
    (limit : Int) (offset : Int) (display_value : Bool) (order_by : String) :
    List (String × PValue) :=
  [("sysparm_limit", PValue.int (min limit 1000)), ("sysparm_offset", PValue.int offset)]
  ++ (if query = "" then
        (if order_by = "" then [] else [("sysparm_query", PValue.str ("ORDERBY" ++ order_by))])
      else
        [("sysparm_query", PValue.str
          (query ++ (if order_by = "" then "" else "^ORDERBY" ++ order_by)))])
  ++ (match fields with
      | some (f :: fs) => [("sysparm_fields", PValue.str (String.intercalate "," (f :: fs)))]
      | _ => [])
  ++ (if display_value then [("sysparm_display_value", PValue.str "true")] else [])

/-- The GET request `query_records` sends to the transport layer. -/
def query_request (table query : String) (fields : Option (List String))
    (limit : Int) (offset : Int) (display_value : Bool) (order_by : String) : HttpRequest :=
  ⟨"GET", "/api/now/table/" ++ table,
    query_records_params query fields limit offset display_value order_by, none⟩

/-- Embedding of `ServiceNowClient.query_records` (snow_client.py lines 70-103): build
the parameters, GET the table endpoint, normalize the response. A raised
transport fault propagates to the caller. -/
def query_records (http : Http) (table query : String) (fields : Option (List String))
    (limit : Int) (offset : Int) (display_value : Bool) (order_by : String) :
    Except String ResultDict :=
  (http (query_request table query fields limit offset display_value order_by)).map
    handle_response

/-- Embedding of `ServiceNowClient.get_record` (snow_client.py lines 105-124). -/
def get_record (http : Http) (table sys_id : String) (fields : Option (List String))
    (display_value : Bool) : Except String ResultDict :=
  (http ⟨"GET", "/api/now/table/" ++ table ++ "/" ++ sys_id,
    (match fields with
     | some (f :: fs) => [("sysparm_fields", PValue.str (String.intercalate "," (f :: fs)))]
     | _ => [])
    ++ (if display_value then [("sysparm_display_value", PValue.str "true")] else []),
    none⟩).map handle_response

/-- Embedding of `ServiceNowClient.create_record` (snow_client.py lines 126-143). -/
def create_record (http : Http) (table : String) (data : JValue)
    (input_display_value : Bool) : Except String ResultDict :=
  (http ⟨"POST", "/api/now/table/" ++ table,
    (if input_display_value then [("sysparm_input_display_value", PValue.str "true")] else []),
    some data⟩).map handle_response

/-- Embedding of `ServiceNowClient.update_record` (snow_client.py lines 145-163). -/
def update_record (http : Http) (table sys_id : String) (data : JValue)
    (input_display_value : Bool) : Except String ResultDict :=
  (http ⟨"PATCH", "/api/now/table/" ++ table ++ "/" ++ sys_id,
    (if input_display_value then [("sysparm_input_display_value", PValue.str "true")] else []),
    some data⟩).map handle_response

/-- Embedding of `ServiceNowClient.delete_record` (snow_client.py lines 165-171). -/
def delete_record (http : Http) (table sys_id : String) : Except String ResultDict :=
  (http ⟨"DELETE", "/api/now/table/" ++ table ++ "/" ++ sys_id, [], none⟩).map
    handle_response

/-- Embedding of `ServiceNowClient.get_table_schema` (snow_client.py lines 177-196): a
`query_records` call against `sys_dictionary`. -/
def get_table_schema (http : Http) (table : String) : Except String ResultDict :=
  query_records http "sys_dictionary"
    ("name=" ++ table ++ "^active=true^elementISNOTEMPTY")
    (some ["element", "column_label", "internal_type", "max_length", "mandatory",
      "read_only", "reference", "default_value", "comments", "active"])
    500 0 true ""

/-- Embedding of `ServiceNowClient.search_tables` (snow_client.py lines 198-207). -/
def search_tables (http : Http) (search_term : String) (limit : Int) :
    Except String ResultDict :=
  query_records http "sys_db_object"
    ("nameLIKE" ++ search_term ++ "^ORlabelLIKE" ++ search_term ++ "^super_classISNOTEMPTY")
    (some ["name", "label", "super_class", "sys_scope", "is_extendable"])
    limit 0 true ""

/-- Embedding of `ServiceNowClient.get_update_sets` (snow_client.py lines 209-218). -/
def get_update_sets (http : Http) (limit : Int) : Except String ResultDict :=
  query_records http "sys_update_set" "state=in progress"
    (some ["name", "description", "state", "sys_created_by", "sys_created_on"])
    limit 0 true "name"

/-- Embedding of `ServiceNowClient.get_application_scopes` (snow_client.py lines 220-228). -/
def get_application_scopes (http : Http) : Except String ResultDict :=
  query_records http "sys_scope" "active=true"
    (some ["name", "scope", "version", "active"])
    100 0 true ""

/-- Python `inp[k]` on a tool-input dict: the value, or a raised
`KeyError` whose message is the quoted key. -/
def jreq (inp : List (String × JValue)) (k : String) : Except String JValue :=
  match inp.lookup k with
  | some v => .ok v
  | none => .error ("\x27" ++ k ++ "\x27")

/-- Coerce a tool-input value where the Python code consumes a string.
A non-string where the dispatcher's client call needs one surfaces as a
raised fault (Python raises a TypeError at the corresponding use site). -/
def asStr : JValue → Except String String
  | .str s => .ok s
  | _ => .error "TypeError"

/-- Coerce a tool-input value consumed as an int. -/
def asInt : JValue → Except String Int
  | .num n => .ok n
  | _ => .error "TypeError"

/-- Coerce a tool-input value consumed as a bool. -/
def asBool : JValue → Except String Bool
  | .bool b => .ok b
  | _ => .error "TypeError"

/-- Coerce a tool-input value consumed as a list of strings. -/
def asStrList : JValue → Except String (List String)
  | .arr xs => xs.mapM asStr
  | _ => .error "TypeError"

/-- The optional `fields` parameter: absent or JSON null becomes Python
`None`, an array becomes the list. -/
def asFields (inp : List (String × JValue)) : Except String (Option (List String)) :=
  match inp.lookup "fields" with
  | none => .ok none
  | some .null => .ok none
  | some v => (asStrList v).map some

/-- The names of the entries of `TOOL_DEFINITIONS` (tools.py lines
16-214), in declaration order. The definitions' schemas and descriptions
are prose consumed by the model, not by code; `_dispatch` recognizes
exactly these nine names. -/
def TOOL_NAMES : List String :=
  ["query_records", "get_record", "create_record", "update_record", "delete_record",
   "get_table_schema", "search_tables", "get_update_sets", "get_application_scopes"]

/-- Embedding of `_dispatch` (tools.py lines 231-287): route a tool name to the
matching client call, extracting each parameter from the input dict with
its declared default, and fall through to a structured unknown-tool
failure. A missing required key or an ill-typed value is a raised fault
in the `Except` monad, as in Python. -/
def dispatchTool (http : Http) (tool_name : String) (inp : List (String × JValue)) :
    Except String ResultDict :=
  if tool_name = "query_records" then do
    let table ← jreq inp "table" >>= asStr
    let query ← asStr (jget inp "query" (.str ""))
    let fields ← asFields inp
    let limit ← asInt (jget inp "limit" (.num 10))
    let offset ← asInt (jget inp "offset" (.num 0))
    let display_value ← asBool (jget inp "display_value" (.bool false))
    let order_by ← asStr (jget inp "order_by" (.str ""))
    query_records http table query fields limit offset display_value order_by
  else if tool_name = "get_record" then do
    let table ← jreq inp "table" >>= asStr
    let sys_id ← jreq inp "sys_id" >>= asStr
    let fields ← asFields inp
    let display_value ← asBool (jget inp "display_value" (.bool false))
    get_record http table sys_id fields display_value
  else if tool_name = "create_record" then do
    let table ← jreq inp "table" >>= asStr
    let data ← jreq inp "data"
    let input_display_value ← asBool (jget inp "input_display_value" (.bool false))
    create_record http table data input_display_value
  else if tool_name = "update_record" then do
    let table ← jreq inp "table" >>= asStr
    let sys_id ← jreq inp "sys_id" >>= asStr
    let data ← jreq inp "data"
    let input_display_value ← asBool (jget inp "input_display_value" (.bool false))
    update_record http table sys_id data input_display_value
  else if tool_name = "delete_record" then do
    let table ← jreq inp "table" >>= asStr
    let sys_id ← jreq inp "sys_id" >>= asStr
    delete_record http table sys_id
  else if tool_name = "get_table_schema" then do
    let table ← jreq inp "table" >>= asStr
    get_table_schema http table
  else if tool_name = "search_tables" then do
    let search_term ← jreq inp "search_term" >>= asStr
    let limit ← asInt (jget inp "limit" (.num 20))
    search_tables http search_term limit
  else if tool_name = "get_update_sets" then do
    let limit ← asInt (jget inp "limit" (.num 20))
    get_update_sets http limit
  else if tool_name = "get_application_scopes" then
    get_application_scopes http
  else
    .ok ⟨false, none, some (.str ("Unknown tool: " ++ tool_name)), none, none⟩

/-- Embedding of `execute_tool` (tools.py lines 221-228): run `_dispatch`, catching
any raised fault and turning it into a two-key failure dict. The source
then renders the dict with `json.dumps`; the dict itself is returned
here, with `ResultDict.toJson` giving the serialized object. -/
def execute_tool (http : Http) (tool_name : String) (inp : List (String × JValue)) :
    ResultDict :=
  match dispatchTool http tool_name inp with
  | .ok r => r
  | .error e => ⟨false, none, some (.str e), none, none⟩

/-- A content block of a model response: text, or a tool-invocation
request carrying a response-scoped identifier, a tool name and an input
dict. -/
inductive Block where
  | text (s : String)
  | toolUse (id : String) (name : String) (input : List (String × JValue))

/-- The model's stop signal: natural completion, a request for tool
execution, or anything else (e.g. truncation at the output budget). -/
inductive StopReason where
  | end_turn
  | tool_use
  | other (s : String)

/-- A model response: ordered content blocks plus the stop signal. -/
structure ModelResponse where
  content : List Block
  stop_reason : StopReason

/-- One `tool_result` entry of the tool-result message the loop builds:
the identifier of the request it answers and the dispatch outcome (the
source stores the `json.dumps` rendering of this dict). -/
structure ToolResultBlock where
  tool_use_id : String
  content : ResultDict

/-- The content of one conversation message: the caller's plain text, the
model's content blocks, or a batch of tool results. -/
inductive MsgContent where
  | text (s : String)
  | blocks (bs : List Block)
  | toolResults (rs : List ToolResultBlock)

/-- One turn of the conversation history. -/
structure Message where
  role : String
  content : MsgContent

/-- The model inference service, abstracted as in the spec: a function
from the full conversation history (the system prompt and tool catalog
are fixed) to a response. -/
def Model : Type := List Message → ModelResponse

/-- The body of the `tool_use` branch of `run_agent` (snow_agent.py
lines 367-389): walk the response content in order, skip non-`tool_use`
blocks, and for each request invoke `execute_tool` and record a
`tool_result` block tagged with the request's id. -/
def toolResultsFor (http : Http) : List Block → List ToolResultBlock
  | [] => []
  | .text _ :: rest => toolResultsFor http rest
  | .toolUse i n inp :: rest => ⟨i, execute_tool http n inp⟩ :: toolResultsFor http rest

/-- The tool-invocation requests of a response content, in emission
order: (identifier, tool name, input). -/
def toolUses : List Block → List (String × String × List (String × JValue))
  | [] => []
  | .text _ :: rest => toolUses rest
  | .toolUse i n inp :: rest => (i, n, inp) :: toolUses rest

/-- The `while iteration < max_iterations` loop of `run_agent`
(snow_agent.py lines 346-395), with the remaining iteration budget as
fuel. Each pass calls the model once, appends the assistant message
unconditionally, then: `end_turn` breaks; `tool_use` appends one
tool-result message and continues; any other stop reason warns and
breaks. Returns the final history and the number of model calls made. -/
def runLoop (model : Model) (http : Http) : Nat → List Message → List Message × Nat
  | 0, history => (history, 0)
  | fuel + 1, history =>
    let resp := model history
    let history2 := history ++ [⟨"assistant", .blocks resp.content⟩]
    match resp.stop_reason with
    | .end_turn => (history2, 1)
    | .tool_use =>
      let results := toolResultsFor http resp.content
      let out := runLoop model http fuel (history2 ++ [⟨"user", .toolResults results⟩])
      (out.1, out.2 + 1)
    | .other _ => (history2, 1)

/-- Embedding of `max_iterations = 50` (snow_agent.py line 344). -/
def max_iterations : Nat := 50

/-- Embedding of `run_agent` (snow_agent.py lines 328-397): append the caller's user
message and run the loop with the 50-iteration budget. The second
component counts the model calls the invocation made. -/
def run_agent (model : Model) (http : Http) (user_message : String)
    (conversation_history : List Message) : List Message × Nat :=
  runLoop model http max_iterations
    (conversation_history ++ [⟨"user", .text user_message⟩])

/-- A transport stub whose every call raises a transport fault, used to
exercise the fault-handling paths on concrete inputs. -/
def downHttp : Http := fun _ => .error "connection timed out"

/-- A model stub that immediately signals natural completion with a
single text block. -/
def echoModel : Model := fun _ => ⟨[.text "done"], .end_turn⟩

/-- A model stub that always requests one tool invocation. -/
def oneToolModel : Model := fun _ => ⟨[.toolUse "call-1" "ping" [("x", .num 1)]], .tool_use⟩

/-- Unfolding lemma for one pass of the loop. -/
theorem runLoop_succ (model : Model) (http : Http) (fuel : Nat) (history : List Message) :
    runLoop model http (fuel + 1) history =
      (match (model history).stop_reason with
       | .end_turn => (history ++ [⟨"assistant", .blocks (model history).content⟩], 1)
       | .tool_use =>
         ((runLoop model http fuel
             ((history ++ [⟨"assistant", .blocks (model history).content⟩])
               ++ [⟨"user", .toolResults (toolResultsFor http (model history).content)⟩])).1,
          (runLoop model http fuel
             ((history ++ [⟨"assistant", .blocks (model history).content⟩])
               ++ [⟨"user", .toolResults (toolResultsFor http (model history).content)⟩])).2 + 1)
       | .other _ => (history ++ [⟨"assistant", .blocks (model history).content⟩], 1)) := by
  rw [runLoop]

/-- The model-call count of the loop is bounded by its fuel. -/
theorem runLoop_calls_le (model : Model) (http : Http) :
    ∀ (fuel : Nat) (history : List Message), (runLoop model http fuel history).2 ≤ fuel := by
  intro fuel
  induction fuel with
  | zero => intro history; simp [runLoop]
  | succ n ih =>
    intro history
    rw [runLoop_succ]
    cases h : (model history).stop_reason with
    | end_turn => simp
    | tool_use => simpa using ih _
    | other s => simp

/-- C1: one invocation of `run_agent` calls the model at most 50 times,
however many consecutive `tool_use` stop signals the model returns; the
cap makes the loop return normally (the function is total). -/
theorem run_agent_calls_le_50 (model : Model) (http : Http) (user_message : String)
    (conversation_history : List Message) :
    (run_agent model http user_message conversation_history).2 ≤ 50 := by
  have h := runLoop_calls_le model http max_iterations
    (conversation_history ++ [⟨"user", MsgContent.text user_message⟩])
  simpa [run_agent, max_iterations] using h

/-- C3: `_handle_response` always returns exactly one of: success with a
data payload and no error, or failure with an error message and no data.
Every client operation returns `handle_response` applied to the transport
response, so every `RemoteCallResult` any operation produces has this
shape. -/
theorem handle_response_exclusive (resp : HttpResponse) :
    ((handle_response resp).success = true ∧ (handle_response resp).data.isSome
      ∧ (handle_response resp).error = none)
    ∨ ((handle_response resp).success = false ∧ (handle_response resp).error.isSome
      ∧ (handle_response resp).data = none) := by
  unfold handle_response
  repeat' split
  all_goals simp

/-- C5: when `limit` exceeds 1000, the `sysparm_limit` parameter of the
request `query_records` sends to the transport layer is 1000. -/
theorem query_limit_clamped (table query : String) (fields : Option (List String))
    (limit offset : Int) (display_value : Bool) (order_by : String)
    (h : 1000 < limit) :
    ((query_request table query fields limit offset display_value order_by).params).lookup
      "sysparm_limit" = some (PValue.int 1000) := by
  simp [query_request, query_records_params, List.lookup, min_eq_right h.le]

/-- Witness for C5 at `limit = 2000`. -/
theorem query_limit_clamped_witness :
    (1000 : Int) < 2000
    ∧ ((query_request "incident" "" none 2000 0 false "").params).lookup
        "sysparm_limit" = some (PValue.int 1000) :=
  ⟨by norm_num, query_limit_clamped "incident" "" none 2000 0 false "" (by norm_num)⟩

/-- C9: when `limit ≤ 1000` — including `0` and negative values — the
`sysparm_limit` parameter sent is the given limit unchanged: the clamp is
an upper bound only, with no lower bound and no rejection. -/
theorem query_limit_passthrough (table query : String) (fields : Option (List String))
    (limit offset : Int) (display_value : Bool) (order_by : String)
    (h : limit ≤ 1000) :
    ((query_request table query fields limit offset display_value order_by).params).lookup
      "sysparm_limit" = some (PValue.int limit) := by
  simp [query_request, query_records_params, List.lookup, min_eq_left h]

/-- Witness for C9 at `limit = 0` and `limit = -5`. -/
theorem query_limit_passthrough_witness :
    ((0 : Int) ≤ 1000
      ∧ ((query_request "incident" "" none 0 0 false "").params).lookup
          "sysparm_limit" = some (PValue.int 0))
    ∧ ((-5 : Int) ≤ 1000
      ∧ ((query_request "incident" "" none (-5) 0 false "").params).lookup
          "sysparm_limit" = some (PValue.int (-5))) :=
  ⟨⟨by norm_num, query_limit_passthrough "incident" "" none 0 0 false "" (by norm_num)⟩,
   ⟨by norm_num, query_limit_passthrough "incident" "" none (-5) 0 false "" (by norm_num)⟩⟩

/-- C7: an HTTP 500 whose body decodes as the structured envelope
normalizes to failure with error "Internal error", detail "x" and status
code 500, whatever the raw response text is. -/
theorem handle_response_500_envelope (text : String) :
    handle_response ⟨500,
        some (.obj [("error", .obj [("message", .str "Internal error"),
          ("detail", .str "x")])]), text⟩
      = ⟨false, none, some (.str "Internal error"), some (.str "x"), some 500⟩ := rfl

/-- C8: `get_table_schema` is exactly `query_records` against the fixed
metadata table `sys_dictionary`, filtered to active records with a
non-empty `element` for the given table, with limit 500 and display
values requested (offset 0, no order-by). -/
theorem get_table_schema_is_query (http : Http) (table : String) :
    get_table_schema http table
      = query_records http "sys_dictionary"
          ("name=" ++ table ++ "^active=true^elementISNOTEMPTY")
          (some ["element", "column_label", "internal_type", "max_length", "mandatory",
            "read_only", "reference", "default_value", "comments", "active"])
          500 0 true "" := rfl

/-- C4: dispatching a tool name outside the catalog returns a structured
failure — never a raised fault — and the error text contains the unknown
name (`Unknown tool: <name>`). -/
theorem unknown_tool_structured_failure (http : Http) (tool_name : String)
    (inp : List (String × JValue)) (h : tool_name ∉ TOOL_NAMES) :
    execute_tool http tool_name inp
      = ⟨false, none, some (.str ("Unknown tool: " ++ tool_name)), none, none⟩
    ∧ ∃ pre post, "Unknown tool: " ++ tool_name = pre ++ tool_name ++ post := by
  simp only [TOOL_NAMES, List.mem_cons, List.not_mem_nil, or_false, not_or] at h
  obtain ⟨h1, h2, h3, h4, h5, h6, h7, h8, h9⟩ := h
  refine ⟨?_, "Unknown tool: ", "", by simp⟩
  simp only [execute_tool, dispatchTool, if_neg h1, if_neg h2, if_neg h3, if_neg h4,
    if_neg h5, if_neg h6, if_neg h7, if_neg h8, if_neg h9]

/-- Witness for C4 at the unknown name `frobnicate`. -/
theorem unknown_tool_structured_failure_witness :
    "frobnicate" ∉ TOOL_NAMES
    ∧ (execute_tool downHttp "frobnicate" []
        = ⟨false, none, some (.str ("Unknown tool: " ++ "frobnicate")), none, none⟩
      ∧ ∃ pre post, "Unknown tool: " ++ "frobnicate" = pre ++ "frobnicate" ++ post) :=
  ⟨by decide, unknown_tool_structured_failure downHttp "frobnicate" [] (by decide)⟩

/-- A failure produced by `_handle_response` always carries both a
`detail` and a `status_code` key. -/
theorem handle_response_failure_keys (resp : HttpResponse) :
    (handle_response resp).success = false →
      (handle_response resp).status_code.isSome ∧ (handle_response resp).detail.isSome := by
  unfold handle_response
  repeat' split
  all_goals simp

/-- C10: a fault raised during a tool call and caught by `execute_tool`
serializes to exactly the two keys `success = false` and `error` (the
fault's message) — no `status_code`, no `detail` — whereas a normalized
remote failure from `_handle_response` always carries both `status_code`
and `detail`. -/
theorem caught_fault_two_key_result (http : Http) (tool_name : String)
    (inp : List (String × JValue)) (e : String)
    (h : dispatchTool http tool_name inp = .error e) :
    execute_tool http tool_name inp = ⟨false, none, some (.str e), none, none⟩
    ∧ (execute_tool http tool_name inp).toJson
        = .obj [("success", .bool false), ("error", .str e)]
    ∧ ∀ resp : HttpResponse, (handle_response resp).success = false →
        (handle_response resp).status_code.isSome ∧ (handle_response resp).detail.isSome := by
  have he : execute_tool http tool_name inp = ⟨false, none, some (.str e), none, none⟩ := by
    simp [execute_tool, h]
  exact ⟨he, by simp [he, ResultDict.toJson], fun resp => handle_response_failure_keys resp⟩

/-- Witness for C10: calling `query_records` with an input missing the
required `table` key raises a `KeyError`, which `execute_tool` catches. -/
theorem caught_fault_two_key_result_witness :
    dispatchTool downHttp "query_records" [] = .error "\x27table\x27"
    ∧ (execute_tool downHttp "query_records" []
        = ⟨false, none, some (.str "\x27table\x27"), none, none⟩
      ∧ (execute_tool downHttp "query_records" []).toJson
          = .obj [("success", .bool false), ("error", .str "\x27table\x27")]
      ∧ ∀ resp : HttpResponse, (handle_response resp).success = false →
          (handle_response resp).status_code.isSome ∧ (handle_response resp).detail.isSome) :=
  ⟨rfl, caught_fault_two_key_result downHttp "query_records" [] "\x27table\x27" rfl⟩

/-- The per-request walk of the `tool_use` branch equals a map over the
batch of tool-invocation requests, in emission order: one `execute_tool`
call and one result block, tagged with the request identifier, per
request. -/
theorem toolResultsFor_eq_map (http : Http) (bs : List Block) :
    toolResultsFor http bs
      = (toolUses bs).map (fun r => ⟨r.1, execute_tool http r.2.1 r.2.2⟩) := by
  induction bs with
  | nil => rfl
  | cons b rest ih => cases b <;> simp [toolResultsFor, toolUses, ih]

/-- C2: on a `tool_use` response, the dispatcher runs exactly once per
tool-invocation request, in the order the requests appear in the content,
and the loop appends exactly one tool-result message whose blocks are in
bijection with the requests: same count, identifiers equal and in the
same order. -/
theorem tool_use_batch (model : Model) (http : Http) (fuel : Nat) (history : List Message)
    (h : (model history).stop_reason = .tool_use) :
    toolResultsFor http (model history).content
        = (toolUses (model history).content).map
            (fun r => ⟨r.1, execute_tool http r.2.1 r.2.2⟩)
    ∧ (toolResultsFor http (model history).content).map ToolResultBlock.tool_use_id
        = (toolUses (model history).content).map (fun r => r.1)
    ∧ (toolResultsFor http (model history).content).length
        = (toolUses (model history).content).length
    ∧ runLoop model http (fuel + 1) history
        = ((runLoop model http fuel (history
              ++ [⟨"assistant", .blocks (model history).content⟩,
                  ⟨"user", .toolResults (toolResultsFor http (model history).content)⟩])).1,
           (runLoop model http fuel (history
              ++ [⟨"assistant", .blocks (model history).content⟩,
                  ⟨"user", .toolResults (toolResultsFor http (model history).content)⟩])).2
             + 1) := by
  refine ⟨toolResultsFor_eq_map http _, ?_, ?_, ?_⟩
  · rw [toolResultsFor_eq_map]; simp
  · rw [toolResultsFor_eq_map]; simp
  · rw [runLoop_succ, h]
    simp

/-- Witness for C2: a model requesting one invocation of a tool. -/
theorem tool_use_batch_witness :
    (oneToolModel []).stop_reason = .tool_use
    ∧ (toolResultsFor downHttp (oneToolModel []).content
          = (toolUses (oneToolModel []).content).map
              (fun r => ⟨r.1, execute_tool downHttp r.2.1 r.2.2⟩)
      ∧ (toolResultsFor downHttp (oneToolModel []).content).map ToolResultBlock.tool_use_id
          = (toolUses (oneToolModel []).content).map (fun r => r.1)
      ∧ (toolResultsFor downHttp (oneToolModel []).content).length
          = (toolUses (oneToolModel []).content).length
      ∧ runLoop oneToolModel downHttp (0 + 1) []
          = ((runLoop oneToolModel downHttp 0 ([]
                ++ [⟨"assistant", .blocks (oneToolModel []).content⟩,
                    ⟨"user", .toolResults (toolResultsFor downHttp (oneToolModel []).content)⟩])).1,
             (runLoop oneToolModel downHttp 0 ([]
                ++ [⟨"assistant", .blocks (oneToolModel []).content⟩,
                    ⟨"user", .toolResults (toolResultsFor downHttp (oneToolModel []).content)⟩])).2
               + 1)) :=
  ⟨rfl, tool_use_batch oneToolModel downHttp 0 [] rfl⟩

/-- C6: when the model signals natural completion on its first call with
only text content, `run_agent` makes exactly one model call and appends
exactly two messages — the caller's user message and the model's
assistant message. -/
theorem immediate_end_turn (model : Model) (http : Http) (u : String)
    (history : List Message)
    (hstop : (model (history ++ [⟨"user", MsgContent.text u⟩])).stop_reason = .end_turn)
    (htext : ∀ b ∈ (model (history ++ [⟨"user", MsgContent.text u⟩])).content,
        ∃ s, b = Block.text s) :
    run_agent model http u history
      = (history ++ [⟨"user", MsgContent.text u⟩,
          ⟨"assistant", MsgContent.blocks
            (model (history ++ [⟨"user", MsgContent.text u⟩])).content⟩], 1) := by
  unfold run_agent max_iterations
  rw [show (50 : Nat) = 49 + 1 from rfl, runLoop_succ, hstop]
  simp

/-- Witness for C6: a model that completes immediately with one text
block, started on an empty history. -/
theorem immediate_end_turn_witness :
    (echoModel ([] ++ [⟨"user", MsgContent.text "task"⟩])).stop_reason = .end_turn
    ∧ (∀ b ∈ (echoModel ([] ++ [⟨"user", MsgContent.text "task"⟩])).content,
        ∃ s, b = Block.text s)
    ∧ run_agent echoModel downHttp "task" []
        = ([] ++ [⟨"user", MsgContent.text "task"⟩,
            ⟨"assistant", MsgContent.blocks
              (echoModel ([] ++ [⟨"user", MsgContent.text "task"⟩])).content⟩], 1) :=
  ⟨rfl,
   by
     intro b hb
     simp only [echoModel, List.mem_singleton] at hb
     exact ⟨"done", hb⟩,
   immediate_end_turn echoModel downHttp "task" [] rfl
     (by
       intro b hb
       simp only [echoModel, List.mem_singleton] at hb
       exact ⟨"done", hb⟩)⟩
